import Mathlib

/-!
Verification of the trackman-data-pipeline clean-and-load script
(`src/Scripts/csv_to_db.py`) against its natural-language specification.

The script is embedded shallowly: pandas tables are modelled column-wise as
association lists from column names to lists of cell values, the time-format
parsing of `pd.to_datetime(..., format=..., errors='coerce')` is modelled by an
explicit `strptime`-style parser, the database engine and the filesystem are
modelled as explicit inputs (each file's read result and insert outcome are
part of the run environment), and logging is modelled by returning lists of
log events.
-/

namespace Trackman

/-! ## Times and dates

A parsed time-of-day value, as produced by `pd.to_datetime` with a
`%H:%M:%S`-style format and then `.dt.time` (the dummy date part 1900-01-01
introduced by the format parse is dropped by `.dt.time`, so it is not
modelled). -/

structure PTime where
  hour : Nat
  minute : Nat
  second : Nat
  micro : Nat
deriving Repr, DecidableEq

/-- A parsed calendar date, as produced by `pd.to_datetime` on the `Date`
column. -/
structure PDate where
  year : Nat
  month : Nat
  day : Nat
deriving Repr, DecidableEq

/-- Numeric value of a list of decimal digit characters. -/
def digitsVal (ds : List Char) : Nat :=
  ds.foldl (fun a c => a * 10 + (c.toNat - 48)) 0

/-- Take up to `n` leading decimal digits, returning them and the rest. -/
def grabDigits : Nat → List Char → List Char × List Char
  | 0, cs => ([], cs)
  | _ + 1, [] => ([], [])
  | n + 1, c :: cs =>
    if c.isDigit then
      let r := grabDigits n cs
      (c :: r.1, r.2)
    else ([], c :: cs)

/-- Parse a 1- or 2-digit number (`strptime` `%H`/`%M`/`%S` accept one or two
digits). -/
def parseNum2 (cs : List Char) : Option (Nat × List Char) :=
  let r := grabDigits 2 cs
  if r.1.isEmpty then none else some (digitsVal r.1, r.2)

/-- Require the character `c` at the head of the input. -/
def expectChar (c : Char) : List Char → Option (List Char)
  | [] => none
  | x :: xs => if x = c then some xs else none

/-- Parse the `%H:%M:%S` part of a `strptime` format, with the range checks
`strptime` performs (hour 0-23, minute 0-59, second 0-61). -/
def parseHMS (cs : List Char) : Option (Nat × Nat × Nat × List Char) := do
  let p1 ← parseNum2 cs
  let r1 ← expectChar ':' p1.2
  let p2 ← parseNum2 r1
  let r2 ← expectChar ':' p2.2
  let p3 ← parseNum2 r2
  if p1.1 ≤ 23 && p2.1 ≤ 59 && p3.1 ≤ 61 then
    some (p1.1, p2.1, p3.1, p3.2)
  else none

/-- Parse a string against the format `%H:%M:%S.%f` exactly (the whole string
must be consumed, as `pd.to_datetime(..., format=...)` requires): hours,
minutes, seconds, a literal dot, then 1 to 6 fractional digits, right-padded
to microseconds as `strptime` does for `%f`. -/
def parseTimeMicroFmt (s : String) : Option PTime := do
  let p ← parseHMS s.toList
  let r ← expectChar '.' p.2.2.2
  let d := grabDigits 6 r
  if d.1.isEmpty then none
  else if d.2.isEmpty then
    some ⟨p.1, p.2.1, p.2.2.1, digitsVal d.1 * 10 ^ (6 - d.1.length)⟩
  else none

/-- Parse a string against the format `%H:%M:%S` exactly.  This is the format
named on line 61 of the source; note that by the time that line runs, the
`Time` column no longer holds strings (see `timeColumnRaw`). -/
def parseTimeSecFmt (s : String) : Option PTime := do
  let p ← parseHMS s.toList
  if p.2.2.2.isEmpty then some ⟨p.1, p.2.1, p.2.2.1, 0⟩ else none

/-! ## Cells and tables

A pandas DataFrame is modelled column-wise: a list of (column name, cell
list) pairs, in column order.  Cells as read by `pd.read_csv` are strings or
integers (`object` or `int64` columns); cleaning introduces time and date
cells (missing-value cells other than unparsable dates/times are not
modelled, since no verified property involves them). -/

inductive Cell where
  | str (v : String)
  | int (v : Int)
  | time (v : Option PTime)
  | date (v : Option PDate)
deriving Repr, DecidableEq

/-- Left-pad the decimal form of `n` with zeros to width `w`. -/
def padZ (w : Nat) (n : Nat) : String :=
  let s := toString n
  String.mk (List.replicate (w - s.length) '0') ++ s

/-- The Python `str()` form of a `datetime.time` value (`"HH:MM:SS"`, with
`".ffffff"` appended when the microsecond part is nonzero), and `"NaT"` for a
missing value, as produced by `astype(str)` on an object column. -/
def timeCellStr : Option PTime → String
  | none => "NaT"
  | some t =>
    padZ 2 t.hour ++ ":" ++ padZ 2 t.minute ++ ":" ++ padZ 2 t.second ++
      (if t.micro = 0 then "" else "." ++ padZ 6 t.micro)

/-- The Python `str()` form of a midnight `pd.Timestamp` (never reached by the
pipeline, since the `Date` column has dtype `datetime64`, not `object`; present
only to make `Cell.astypeStr` total). -/
def dateCellStr : Option PDate → String
  | none => "NaT"
  | some d => padZ 4 d.year ++ "-" ++ padZ 2 d.month ++ "-" ++ padZ 2 d.day ++ " 00:00:00"

/-- Embedding of `astype(str)` on a single cell: the Python `str()` form of the value. -/
def Cell.astypeStr : Cell → String
  | .str v => v
  | .int v => toString v
  | .time v => timeCellStr v
  | .date v => dateCellStr v

/-- A pandas DataFrame, column-wise. -/
abbrev Table := List (String × List Cell)

/-- Column access `df[name]`: the first column with the given name, `none`
modelling the `KeyError` raised when the column is absent. -/
def getCol (df : Table) (name : String) : Option (List Cell) :=
  (df.find? (fun c => c.1 == name)).map (fun c => c.2)

/-- Column assignment `df[name] = vals`: replace the column in place when it
exists, else append it as the last column (pandas semantics). -/
def setCol (df : Table) (name : String) (vals : List Cell) : Table :=
  if df.any (fun c => c.1 == name) then
    df.map (fun c => if c.1 == name then (name, vals) else c)
  else df ++ [(name, vals)]

/-- Embedding of `len(df)`: the number of rows, i.e. the length of the first column (0 for
a table with no columns). -/
def Table.nrows : Table → Nat
  | [] => 0
  | c :: _ => c.2.length

/-! ## Record Cleaner (`clean_data`, source lines 57-69)

`clean_data` renames `Top/Bottom` to `Top_Bottom`, coerces the `Date` and
`Time` columns, derives `RowID`, and stringifies every `object`-dtype column.
It is a pure transformation; a `none` result models the `KeyError` the source
raises when a required column (`Date`, `Time`, `GameID` or `PitchNo`) is
absent, an exception that `main`'s per-file handler catches. -/

/-- Line 58: `df.rename(columns={'Top/Bottom': 'Top_Bottom'}, inplace=True)`. -/
def renameTB (df : Table) : Table :=
  df.map (fun c => (if c.1 == "Top/Bottom" then "Top_Bottom" else c.1, c.2))

/-- Line 59 per cell: `pd.to_datetime(..., errors='coerce')` with the default
(dateutil-style) parser, which is an external library routine; it is passed in
as `parseDate`.  Non-string cells fail the parse and coerce to `NaT`. -/
def dateCellParse (parseDate : String → Option PDate) : Cell → Option PDate
  | .str s => parseDate s
  | _ => none

/-- Line 60 per cell: `pd.to_datetime(..., format='%H:%M:%S.%f',
errors='coerce')` on a cell as read from CSV; non-string cells fail the
format parse and coerce to `NaT`. -/
def timeCellMicro : Cell → Option PTime
  | .str s => parseTimeMicroFmt s
  | _ => none

/-- Line 61's inner call, `pd.to_datetime(df['Time'], format='%H:%M:%S',
errors='coerce')`: by line 61 the `Time` column has already been overwritten by
line 60 and holds datetime values (`NaT` where the `%H:%M:%S.%f` parse failed);
`pd.to_datetime` applied to an already datetime-typed column returns it
unchanged, without applying the `format` argument to anything. -/
def to_datetime_onDatetimeCol (col : List (Option PTime)) : List (Option PTime) :=
  col

/-- Embedding of `a.fillna(b)`: each missing entry of `a` replaced by the corresponding
entry of `b`. -/
def fillna (a b : List (Option PTime)) : List (Option PTime) :=
  List.zipWith (fun x y => match x with | some v => some v | none => y) a b

/-- Lines 60-62: the `Time` column transformation.  Line 60 parses the raw
cells with the microsecond format; line 61 fills the failures from a re-parse
of the column — but the column it re-parses is the already-converted one, so
the fill argument is the column itself and fills nothing; line 62 (`.dt.time`)
drops the dummy date part, which the `PTime` model never carried. -/
def timeColumnRaw (cells : List Cell) : List (Option PTime) :=
  let t1 := cells.map timeCellMicro
  let t2 := fillna t1 (to_datetime_onDatetimeCol t1)
  t2

/-- Lines 60-62 on a column of string cells, as read from a CSV file. -/
def timeColumn (ss : List String) : List (Option PTime) :=
  timeColumnRaw (ss.map Cell.str)

/-- Line 63 per row: `df['GameID'] + '_' + df['PitchNo'].astype(str)`.
String concatenation requires the `GameID` cell to be a string (pandas raises
a `TypeError`, modelled as `none`, when adding a non-string to `'_'`); the
`PitchNo` cell is stringified by `astype(str)`. -/
def rowIdEntry : Cell → Cell → Option Cell
  | .str g, p => some (.str (g ++ "_" ++ p.astypeStr))
  | _, _ => none

/-- Line 63 column-wise (cleaned tables are rectangular, so pairing the two
columns positionally matches pandas' index alignment). -/
def rowIdCol : List Cell → List Cell → Option (List Cell)
  | [], _ => some []
  | _ :: _, [] => some []
  | g :: gs, p :: ps => do
    let c ← rowIdEntry g p
    let rest ← rowIdCol gs ps
    some (c :: rest)

/-- Whether a column has pandas dtype `object`: its cells are Python objects —
strings, or the `datetime.time` values produced by `.dt.time` — rather than
`int64` or `datetime64` values. -/
def colIsObject (vs : List Cell) : Bool :=
  vs.all (fun c => match c with
    | .str _ => true
    | .time _ => true
    | .int _ => false
    | .date _ => false)

/-- Lines 65-67: `df[col] = df[col].astype(str)` for every column of dtype
`object`. -/
def astypeLoop (df : Table) : Table :=
  df.map (fun c =>
    if colIsObject c.2 then (c.1, c.2.map (fun v => Cell.str v.astypeStr)) else c)

/-- Lines 57-69: `clean_data`.  `parseDate` is the external default
`pd.to_datetime` parser used for the `Date` column.  Each `none` branch is the
`KeyError` raised when the accessed column is absent, in the order the source
accesses them. -/
def clean_data (parseDate : String → Option PDate) (df : Table) : Option Table :=
  match getCol (renameTB df) "Date" with
  | none => none
  | some dateRaw =>
    match getCol (setCol (renameTB df) "Date"
        (dateRaw.map (fun c => Cell.date (dateCellParse parseDate c)))) "Time" with
    | none => none
    | some timeRaw =>
      match getCol (setCol (setCol (renameTB df) "Date"
            (dateRaw.map (fun c => Cell.date (dateCellParse parseDate c)))) "Time"
            ((timeColumnRaw timeRaw).map Cell.time)) "GameID",
          getCol (setCol (setCol (renameTB df) "Date"
            (dateRaw.map (fun c => Cell.date (dateCellParse parseDate c)))) "Time"
            ((timeColumnRaw timeRaw).map Cell.time)) "PitchNo" with
      | some gs, some ps =>
        match rowIdCol gs ps with
        | none => none
        | some rid =>
          some (astypeLoop (setCol (setCol (setCol (renameTB df) "Date"
            (dateRaw.map (fun c => Cell.date (dateCellParse parseDate c)))) "Time"
            ((timeColumnRaw timeRaw).map Cell.time)) "RowID" rid))
      | none, _ => none
      | some _, none => none

/-! ## Directory Scanner (`list_csv_files`, source lines 34-55) -/

/-- Whether `pat` occurs as a contiguous substring (Python's `in` operator). -/
def containsSub (pat : List Char) : List Char → Bool
  | [] => pat.isEmpty
  | c :: cs => pat.isPrefixOf (c :: cs) || containsSub pat cs

/-- Python's `filename.lower()`, character-wise (the compared substrings and
suffix are ASCII, for which per-character ASCII lowercasing coincides with
Python's `str.lower`). -/
def lowerList (s : String) : List Char :=
  s.toList.map Char.toLower

/-- The filesystem under the root directory, as seen by `os.walk`:
either readable, as a list of `(dirpath, filenames)` entries in walk order,
or missing/permission-denied. -/
inductive DirStatus where
  | readable (entries : List (String × List String))
  | unreadable

/-- Embedding of `os.walk(root)` with the default `onerror=None`: errors raised while
scanning a directory (missing root, permission denied) are silently ignored,
so walking an unreadable root yields no entries and raises nothing. -/
def walk : DirStatus → List (String × List String)
  | .readable es => es
  | .unreadable => []

/-- Embedding of `os.path.join(dirpath, filename)` for a dirpath without a trailing
separator. -/
def pathJoin (dirpath filename : String) : String :=
  dirpath ++ "/" ++ filename

/-- The accumulated state of `list_csv_files`: the included file paths and the
three counters. -/
structure ScanResult where
  csvFiles : List String
  unverified : Nat
  playerPos : Nat
  total : Nat
deriving Repr, DecidableEq

/-- Lines 42-51: the body of the inner loop, for one filename. -/
def scanStep (acc : ScanResult) (dirpath filename : String) : ScanResult :=
  if containsSub "unverified".toList (lowerList filename) then
    { acc with unverified := acc.unverified + 1 }
  else if containsSub "playerpositioning".toList (lowerList filename) ||
      containsSub "playertracking".toList (lowerList filename) then
    { acc with playerPos := acc.playerPos + 1 }
  else if ".csv".toList.isSuffixOf (lowerList filename) then
    { acc with csvFiles := acc.csvFiles ++ [pathJoin dirpath filename],
               total := acc.total + 1 }
  else acc

/-- The inner loop over the filenames of one walk entry. -/
def scanDir (acc : ScanResult) (entry : String × List String) : ScanResult :=
  entry.2.foldl (fun a f => scanStep a entry.1 f) acc

/-- Lines 34-55: `list_csv_files` (the two summary log lines it emits are
produced from the returned counters in `mainRun`). -/
def list_csv_files (root : DirStatus) : ScanResult :=
  (walk root).foldl scanDir ⟨[], 0, 0, 0⟩

/-! ## Insert and error classification (`insert_to_db`, source lines 71-84) -/

/-- The exception, if any, raised by `df.to_sql` for one file's insert, as an
input from the external database layer: a SQLAlchemy `IntegrityError` carrying
the driver-level message `str(e.orig)`, any other `SQLAlchemyError`, or any
other exception.  (`IntegrityError` is a subclass of `SQLAlchemyError`, which
the source's `except` ordering accounts for; the model keeps the cases
disjoint.) -/
inductive DbError where
  | integrityError (origMsg : String)
  | sqlalchemyError (msg : String)
  | otherError (msg : String)
deriving Repr, DecidableEq

/-- Capture group of `(.*?)\)` starting at the current position: the shortest
run of non-newline characters (`.` does not match a newline) up to a literal
`)`. -/
def captureToParen : List Char → Option (List Char)
  | [] => none
  | c :: cs =>
    if c = ')' then some []
    else if c = '\n' then none
    else (captureToParen cs).map (fun r => c :: r)

/-- Line 76: `re.search(r"The duplicate key value is \((.*?)\)", msg)`,
returning the captured group: at each successive start position, match the
literal prefix and then the shortest capture up to `)`. -/
def extractDupKey (msg : String) : Option String :=
  go msg.toList
where
  /-- Scan of successive start positions. -/
  go : List Char → Option String
    | [] => none
    | c :: cs =>
      match
        (if "The duplicate key value is (".toList.isPrefixOf (c :: cs) then
          captureToParen ((c :: cs).drop "The duplicate key value is (".length)
        else none) with
      | some r => some (String.mk r)
      | none => go cs

/-- The per-file log events of the script, carrying the data interpolated into
the corresponding log message (the free-text of wrapped exception messages is
elided where the source merely stringifies an exception). -/
inductive FileLog where
  /-- Line 74: `"{file_path} → Inserted {len(df)} rows"`. -/
  | inserted (path : String) (rows : Nat)
  /-- Line 78: `"Integrity error: Duplicate key '{key}' in {file_path}"`. -/
  | dupKey (path : String) (key : String)
  /-- Line 80: `"Integrity error: {e}"` (no key found in the message). -/
  | integrityRaw (origMsg : String)
  /-- Line 82: `"SQLAlchemy error for {file_path}: {e}"`. -/
  | sqlaError (path : String) (msg : String)
  /-- Line 84: `"Unhandled error for {file_path}: {e}"`. -/
  | unhandled (path : String) (msg : String)
  /-- Line 125: `"Skipped {file_path}, Level = {level}"`. -/
  | skippedLevel (path : String) (level : Cell)
  /-- Line 131: `"Error reading {file_path}: {e}"`. -/
  | readError (path : String)
deriving Repr, DecidableEq

/-- Lines 71-84: `insert_to_db`.  The insert outcome (`none` for success) is
an input from the external database; every exception is caught and classified
inside the function, which therefore always returns — nothing propagates to
the caller. -/
def insert_to_db (outcome : Option DbError) (rows : Nat) (path : String) : FileLog :=
  match outcome with
  | none => .inserted path rows
  | some (.integrityError origMsg) =>
    match extractDupKey origMsg with
    | some k => .dupKey path k
    | none => .integrityRaw origMsg
  | some (.sqlalchemyError m) => .sqlaError path m
  | some (.otherError m) => .unhandled path m

/-! ## Batch Loader and run (`main`, source lines 86-140)

The external world — the filesystem tree, the result of `pd.read_csv` on each
path, the outcome of each attempted insert, and the library date parser — are
inputs bundled in `Env`.  Configuration loading, connection-string assembly
and `create_engine` (lines 88-103, `create_engine` performs no connection
attempt) are external setup outside the modelled run. -/

/-- The result of `pd.read_csv(file_path)`: a parsed table, or a raised
parse/read exception. -/
inductive ReadResult where
  | failure
  | table (df : Table)
deriving Repr, DecidableEq

/-- One candidate file as `main` sees it: its path, its read result, and the
database's response to an insert attempt (`none` = success). -/
structure FileEntry where
  path : String
  read : ReadResult
  insertOutcome : Option DbError
deriving Repr, DecidableEq

/-- The run environment. -/
structure Env where
  fs : DirStatus
  readFile : String → ReadResult
  insertOutcome : String → Option DbError
  parseDate : String → Option PDate

/-- The file entry `main` obtains for a path. -/
def mkEntry (env : Env) (p : String) : FileEntry :=
  ⟨p, env.readFile p, env.insertOutcome p⟩

/-- Line 124: `df['Level'].iloc[0]` — `none` models the exception raised when
the `Level` column is absent (`KeyError`) or empty (`IndexError` on a zero-row
table); both are caught by the per-file handler. -/
def firstLevel (df : Table) : Option Cell :=
  (getCol df "Level").bind List.head?

/-- The run-level log events. -/
inductive RunLog where
  /-- Line 53: `"Files skipped: {u} unverified, {p} player positioning"`. -/
  | skippedSummary (unverified playerPos : Nat)
  /-- Line 54: `"Total CSV files to process: {total}"`. -/
  | totalToProcess (total : Nat)
  /-- Line 108: `"No CSV files found."`. -/
  | noFilesFound
  /-- A per-file event from the inner loop. -/
  | fileLog (l : FileLog)
  /-- Line 134: `"Processed batch {n} | Mem: ..."` (the `psutil` memory
  readings are external measurements, elided). -/
  | batchDone (n : Nat)
  /-- Line 137: `"Complete: {files} files, {rows} rows in ... sec"` (elapsed
  wall-clock time elided). -/
  | complete (files rows : Nat)
  /-- Line 140: `"Fatal error: {e}"`. -/
  | fatalFailure
deriving Repr, DecidableEq

/-- Lines 120-131: the body of the per-file loop, wrapped in its
`try/except`.  Returns the file's log events and the amount added to
`total_rows` (line 129 adds `len(df)` of the *cleaned* table whenever
`insert_to_db` returns, which it always does — whether or not the insert
succeeded). -/
def processFile (parseDate : String → Option PDate) (e : FileEntry) :
    List FileLog × Nat :=
  match e.read with
  | .failure => ([.readError e.path], 0)
  | .table df =>
    match firstLevel df with
    | none => ([.readError e.path], 0)
    | some lvl =>
      if lvl ≠ Cell.str "D1" then ([.skippedLevel e.path lvl], 0)
      else
        match clean_data parseDate df with
        | none => ([.readError e.path], 0)
        | some cdf => ([insert_to_db (e.insertOutcome) cdf.nrows e.path], cdf.nrows)

/-- The inner `for file_path in batch` loop: per-file logs in order, and the
rows added to `total_rows` by this batch. -/
def runBatch (env : Env) (paths : List String) : List RunLog × Nat :=
  paths.foldl
    (fun acc p =>
      let r := processFile env.parseDate (mkEntry env p)
      (acc.1 ++ r.1.map RunLog.fileLog, acc.2 + r.2))
    ([], 0)

/-- Recursion for `chunks100` on a fuel bound of the list length (each step
drops at least one element, so `l.length` steps always suffice; fuel keeps the
recursion structural). -/
def chunksGo : Nat → List String → List (List String)
  | _, [] => []
  | 0, _ :: _ => []
  | fuel + 1, p :: ps => ((p :: ps).take 100) :: chunksGo fuel ((p :: ps).drop 100)

/-- Embedding of the `range(0, len(l), 100)` slicing: the list cut into consecutive chunks of
100 (the last possibly shorter). -/
def chunks100 (l : List String) : List (List String) :=
  chunksGo l.length l

/-- Lines 105-140: the body of `main` after external setup.  The outer
`try/except` would log a single fatal error were anything inside to raise;
every modelled operation inside it is total (discovery ignores filesystem
errors, and per-file work is fenced by the per-file handler), so the fatal
branch is unreachable and `fatal` is always `false`. -/
structure RunResult where
  logs : List RunLog
  totalRows : Nat
  fatal : Bool
deriving Repr, DecidableEq

/-- Lines 105-137: one run of `main` over its environment. -/
def mainRun (env : Env) : RunResult :=
  let scan := list_csv_files env.fs
  let scanLogs : List RunLog :=
    [.skippedSummary scan.unverified scan.playerPos, .totalToProcess scan.total]
  if scan.csvFiles.isEmpty then
    ⟨scanLogs ++ [.noFilesFound], 0, false⟩
  else
    let r := (chunks100 scan.csvFiles).enum.foldl
      (fun (acc : List RunLog × Nat) ib =>
        let b := runBatch env ib.2
        (acc.1 ++ b.1 ++ [.batchDone (ib.1 + 1)], acc.2 + b.2))
      ([], 0)
    ⟨scanLogs ++ r.1 ++ [.complete scan.csvFiles.length r.2], r.2, false⟩

/-! ## Specification-side definitions

Named restatements of the Scanner's per-filename conditions and of derived
run quantities, used to state the verified properties. -/

/-- The filename contains `"unverified"`, case-insensitively. -/
def specUnv (f : String) : Bool :=
  containsSub "unverified".toList (lowerList f)

/-- The filename contains `"playerpositioning"` or `"playertracking"`,
case-insensitively. -/
def specPlayerSub (f : String) : Bool :=
  containsSub "playerpositioning".toList (lowerList f) ||
    containsSub "playertracking".toList (lowerList f)

/-- Counted as player-tracking: matches a player-tracking substring and is not
already counted as unverified. -/
def specPlayer (f : String) : Bool :=
  !specUnv f && specPlayerSub f

/-- Included: ends with `.csv` (case-insensitively) and matches neither
exclusion. -/
def specIncl (f : String) : Bool :=
  !specUnv f && !specPlayerSub f && ".csv".toList.isSuffixOf (lowerList f)

/-- Silently ignored: matches no exclusion and does not end with `.csv`. -/
def specIgn (f : String) : Bool :=
  !specUnv f && !specPlayerSub f && !(".csv".toList.isSuffixOf (lowerList f))

/-- All filenames seen by the walk, in enumeration order. -/
def allNames (entries : List (String × List String)) : List String :=
  (entries.map (fun e => e.2)).flatten

/-- The paths the Scanner should include, in enumeration order. -/
def includedPaths (entries : List (String × List String)) : List String :=
  (entries.map (fun e => (e.2.filter specIncl).map (pathJoin e.1))).flatten

/-- Whether a per-file log event records the outcome of an insert attempt
(successful or classified-failed), as opposed to a skip or read error. -/
def FileLog.isInsertLog : FileLog → Bool
  | .inserted _ _ => true
  | .dupKey _ _ => true
  | .integrityRaw _ => true
  | .sqlaError _ _ => true
  | .unhandled _ _ => true
  | .skippedLevel _ _ => false
  | .readError _ => false

/-! ## Concrete run environments used to settle individual claims -/

/-- A two-row `D1` table (file A of the duplicate-key scenario). -/
def dfTwoRows : Table :=
  [("Level", [.str "D1", .str "D1"]),
   ("Date", [.str "2023-04-01", .str "2023-04-01"]),
   ("Time", [.str "14:05:30.123456", .str "14:05:31.000001"]),
   ("GameID", [.str "G1", .str "G1"]),
   ("PitchNo", [.int 1, .int 2])]

/-- A three-row `D1` table (file B of the duplicate-key scenario). -/
def dfThreeRows : Table :=
  [("Level", [.str "D1", .str "D1", .str "D1"]),
   ("Date", [.str "2023-04-01", .str "2023-04-01", .str "2023-04-01"]),
   ("Time", [.str "14:05:30.123456", .str "14:05:31.000001", .str "14:05:32.000002"]),
   ("GameID", [.str "G1", .str "G1", .str "G1"]),
   ("PitchNo", [.int 1, .int 2, .int 3])]

/-- A run with file A (two rows, insert succeeds) and file B (three rows,
insert raises a duplicate-key `IntegrityError`). -/
def envC2 : Env where
  fs := .readable [("d", ["a.csv", "b.csv"])]
  readFile := fun p => if p = "d/a.csv" then .table dfTwoRows else .table dfThreeRows
  insertOutcome := fun p =>
    if p = "d/a.csv" then none
    else some (.integrityError
      "(pyodbc.IntegrityError) Violation of PRIMARY KEY constraint. The duplicate key value is (G1_1). (2627)")
  parseDate := fun _ => none

/-- A run whose root directory is missing or permission-denied. -/
def envC3 : Env where
  fs := .unreadable
  readFile := fun _ => .failure
  insertOutcome := fun _ => none
  parseDate := fun _ => none

/-- A run whose root directory is readable but contains no files at all. -/
def envC7 : Env where
  fs := .readable []
  readFile := fun _ => .failure
  insertOutcome := fun _ => none
  parseDate := fun _ => none

/-! ## General lemmas about the run structure -/

/-- Both branches of `mainRun` build a result with `fatal := false`: nothing
inside the outer `try` raises in the model (discovery ignores filesystem
errors and per-file work is fenced), so line 140 is unreachable. -/
theorem mainRun_fatal_false (env : Env) : (mainRun env).fatal = false := by
  unfold mainRun
  dsimp only
  split <;> rfl

/-- Unfolding of the per-file fold from an arbitrary accumulator. -/
theorem runBatch_foldl (env : Env) (paths : List String) (acc : List RunLog × Nat) :
    paths.foldl
      (fun acc p =>
        let r := processFile env.parseDate (mkEntry env p)
        (acc.1 ++ r.1.map RunLog.fileLog, acc.2 + r.2)) acc =
    (acc.1 ++ (paths.map
        (fun p => (processFile env.parseDate (mkEntry env p)).1.map RunLog.fileLog)).flatten,
     acc.2 + (paths.map (fun p => (processFile env.parseDate (mkEntry env p)).2)).sum) := by
  induction paths generalizing acc with
  | nil => simp
  | cons p ps ih => simp [ih, List.append_assoc, Nat.add_assoc]

/-- The inner loop processes every file of the batch independently, in order:
its logs are the concatenation of the per-file logs and its row total is the
sum of the per-file row contributions. -/
theorem runBatch_eq (env : Env) (paths : List String) :
    runBatch env paths =
      ((paths.map
          (fun p => (processFile env.parseDate (mkEntry env p)).1.map RunLog.fileLog)).flatten,
       (paths.map (fun p => (processFile env.parseDate (mkEntry env p)).2)).sum) := by
  unfold runBatch
  rw [runBatch_foldl]
  simp

/-- The row total of the batch fold from an arbitrary accumulator. -/
theorem batchFold_snd (env : Env) (l : List (Nat × List String)) (acc : List RunLog × Nat) :
    (l.foldl
      (fun (acc : List RunLog × Nat) ib =>
        let b := runBatch env ib.2
        (acc.1 ++ b.1 ++ [RunLog.batchDone (ib.1 + 1)], acc.2 + b.2)) acc).2 =
      acc.2 + (l.map (fun ib => (runBatch env ib.2).2)).sum := by
  induction l generalizing acc with
  | nil => simp
  | cons x xs ih =>
    rw [List.foldl_cons, ih]
    simp only [List.map_cons, List.sum_cons]
    omega

/-- With enough fuel, slicing and concatenating back is the identity. -/
theorem chunksGo_flatten (fuel : Nat) (l : List String) (h : l.length ≤ fuel) :
    (chunksGo fuel l).flatten = l := by
  induction fuel generalizing l with
  | zero =>
    cases l with
    | nil => rfl
    | cons p ps => simp at h
  | succ f ih =>
    cases l with
    | nil => rfl
    | cons p ps =>
      rw [chunksGo, List.flatten_cons, ih]
      · exact List.take_append_drop 100 (p :: ps)
      · simp only [List.length_drop, List.length_cons]
        simp only [List.length_cons] at h
        omega

/-- Slicing into batches of 100 and concatenating back is the identity. -/
theorem chunks100_flatten (l : List String) : (chunks100 l).flatten = l :=
  chunksGo_flatten l.length l (Nat.le_refl _)

/-- The run's row total is the sum, over the discovered files in order, of
each file's contribution, independent of the batch slicing. -/
theorem mainRun_totalRows (env : Env) :
    (mainRun env).totalRows =
      ((list_csv_files env.fs).csvFiles.map
        (fun p => (processFile env.parseDate (mkEntry env p)).2)).sum := by
  unfold mainRun
  dsimp only
  split
  · next h =>
    rw [List.isEmpty_iff] at h
    simp [h]
  · dsimp only
    rw [batchFold_snd]
    have hmap : ((chunks100 (list_csv_files env.fs).csvFiles).enum.map
        (fun ib => (runBatch env ib.2).2)) =
        ((chunks100 (list_csv_files env.fs).csvFiles).map
          (fun b => (runBatch env b).2)) := by
      rw [show (fun (ib : Nat × List String) => (runBatch env ib.2).2) =
          ((fun b => (runBatch env b).2) ∘ Prod.snd) from rfl]
      rw [← List.map_map, List.enum_map_snd]
    rw [hmap]
    have hsum : ((chunks100 (list_csv_files env.fs).csvFiles).map
        (fun b => (runBatch env b).2)).sum =
        ((list_csv_files env.fs).csvFiles.map
          (fun p => (processFile env.parseDate (mkEntry env p)).2)).sum := by
      calc ((chunks100 (list_csv_files env.fs).csvFiles).map
              (fun b => (runBatch env b).2)).sum
          = ((chunks100 (list_csv_files env.fs).csvFiles).map
              (fun b => (b.map
                (fun p => (processFile env.parseDate (mkEntry env p)).2)).sum)).sum := by
            congr 1
            apply List.map_congr_left
            intro b _
            rw [runBatch_eq]
        _ = (List.map List.sum ((chunks100 (list_csv_files env.fs).csvFiles).map
              (List.map (fun p => (processFile env.parseDate (mkEntry env p)).2)))).sum := by
            rw [List.map_map]
            rfl
        _ = ((chunks100 (list_csv_files env.fs).csvFiles).map
              (List.map (fun p => (processFile env.parseDate (mkEntry env p)).2))).flatten.sum := by
            rw [List.sum_flatten]
        _ = (List.map (fun p => (processFile env.parseDate (mkEntry env p)).2)
              (chunks100 (list_csv_files env.fs).csvFiles).flatten).sum := by
            rw [List.map_flatten]
        _ = ((list_csv_files env.fs).csvFiles.map
              (fun p => (processFile env.parseDate (mkEntry env p)).2)).sum := by
            rw [chunks100_flatten]
    rw [hsum]
    simp

/-! ## Claim theorems -/

/-- Claim C1 (code evaluation at the failing input): the Record Cleaner's
`Time` transformation parses `"14:05:30.123456"` to 14:05:30 with microsecond
precision, but `"14:05:30"` — which the seconds-only format `%H:%M:%S` itself
would parse, as the second conjunct shows — comes out null rather than
14:05:30, because line 61 re-parses the column already overwritten by line 60
instead of the original strings, so the fallback never sees `"14:05:30"`;
`"garbage"` comes out null as claimed. -/
theorem c1_time_parse_eval :
    timeColumn ["14:05:30.123456", "14:05:30", "garbage"] =
      [some ⟨14, 5, 30, 123456⟩, none, none] ∧
    parseTimeSecFmt "14:05:30" = some ⟨14, 5, 30, 0⟩ := by
  constructor <;> rfl

/-- Claim C2 (counterexample): in a run where file A (2 rows) inserts
successfully and file B (3 rows) raises a duplicate-key `IntegrityError`, the
run's row total is 5, not the 2 the claim requires (B's rows are not excluded):
line 129 adds `len(df)` after `insert_to_db` has already swallowed the
exception.  The run does complete non-fatally with B logged as a duplicate-key
error, as claimed. -/
theorem c2_counterexample :
    (mainRun envC2).totalRows = 5 ∧
    ¬(mainRun envC2).totalRows = 2 ∧
    (mainRun envC2).fatal = false ∧
    RunLog.fileLog (FileLog.dupKey "d/b.csv" "G1_1") ∈ (mainRun envC2).logs ∧
    RunLog.fileLog (FileLog.inserted "d/a.csv" 2) ∈ (mainRun envC2).logs := by
  refine ⟨by rfl, by decide, by rfl, by decide, by decide⟩

/-- Claim C2 (amended): the running total counts the rows of every file that
passes the D1 gate and cleans successfully, regardless of whether its insert
succeeds — a file whose insert raises contributes its full row count, since
`insert_to_db` absorbs every exception before line 129 runs; the run still
completes non-fatally with the failure logged.  Formally: the run never ends
fatally, its row total is the sum of the per-file contributions, and a file's
contribution does not depend on the insert outcome. -/
theorem c2_total_rows_amended (env : Env) :
    (mainRun env).fatal = false ∧
    (mainRun env).totalRows =
      ((list_csv_files env.fs).csvFiles.map
        (fun p => (processFile env.parseDate (mkEntry env p)).2)).sum ∧
    ∀ (pd : String → Option PDate) (p : String) (df : Table) (r r2 : Option DbError),
      (processFile pd ⟨p, .table df, r⟩).2 = (processFile pd ⟨p, .table df, r2⟩).2 := by
  refine ⟨mainRun_fatal_false env, mainRun_totalRows env, ?_⟩
  intro pd p df r r2
  cases h : firstLevel df with
  | none => simp [processFile, h]
  | some lvl =>
    by_cases hl : lvl = Cell.str "D1"
    · cases hc : clean_data pd df <;> simp [processFile, h, hl, hc]
    · simp [processFile, h, hl]

/-- Claim C3 (counterexample): with an unreadable root directory the run does
not abort and emits no fatal entry: `os.walk` silently ignores the scandir
error, so discovery returns an empty list and the run logs the scan summaries
and `"No CSV files found."` and returns normally. -/
theorem c3_counterexample :
    (mainRun envC3).fatal = false ∧
    mainRun envC3 =
      ⟨[.skippedSummary 0 0, .totalToProcess 0, .noFilesFound], 0, false⟩ := by
  exact ⟨rfl, rfl⟩

/-- Claim C3 (amended): an unreadable (missing or permission-denied) root
directory is not surfaced: `os.walk`'s default `onerror=None` swallows the
error, discovery yields an empty candidate list with zero counters, and the
run logs `"No CSV files found."` and returns normally — no fatal entry, no
per-file processing.  Discovery itself has no error conditions at all. -/
theorem c3_unreadable_root_not_fatal (rf : String → ReadResult)
    (io2 : String → Option DbError) (pd : String → Option PDate) :
    mainRun ⟨.unreadable, rf, io2, pd⟩ =
      ⟨[.skippedSummary 0 0, .totalToProcess 0, .noFilesFound], 0, false⟩ := rfl

/-- Claim C6: every file-scoped failure is absorbed at the file boundary.  A
raised `pd.read_csv` failure yields exactly one read-error log and no rows;
an insertion failure is classified as duplicate-key (with the offending key
extracted from the driver message when the pattern matches, else the raw
message logged), persistence-error for any other SQLAlchemy failure, or
unexpected for anything else, each producing exactly one log; and no run ever
ends in the fatal branch, so nothing below the batch loader terminates it. -/
theorem c6_error_classification (p : String) (rows : Nat) :
    (∀ (pd : String → Option PDate) (res : Option DbError),
      processFile pd ⟨p, .failure, res⟩ = ([.readError p], 0)) ∧
    (∀ m k, extractDupKey m = some k →
      insert_to_db (some (.integrityError m)) rows p = .dupKey p k) ∧
    (∀ m, extractDupKey m = none →
      insert_to_db (some (.integrityError m)) rows p = .integrityRaw m) ∧
    (∀ m, insert_to_db (some (.sqlalchemyError m)) rows p = .sqlaError p m) ∧
    (∀ m, insert_to_db (some (.otherError m)) rows p = .unhandled p m) ∧
    (∀ env : Env, (mainRun env).fatal = false) := by
  refine ⟨fun _ _ => rfl, ?_, ?_, fun _ => rfl, fun _ => rfl, mainRun_fatal_false⟩
  · intro m k h
    simp [insert_to_db, h]
  · intro m h
    simp [insert_to_db, h]

/-- Witness for C6 at concrete inputs: a driver message exposing the key
`G1_7` is classified as a duplicate-key error with that key extracted. -/
theorem c6_witness :
    insert_to_db
      (some (.integrityError
        "(pyodbc.IntegrityError) Violation of PRIMARY KEY constraint. The duplicate key value is (G1_7). (2627)"))
      3 "d/x.csv" = .dupKey "d/x.csv" "G1_7" :=
  (c6_error_classification "d/x.csv" 3).2.1
    "(pyodbc.IntegrityError) Violation of PRIMARY KEY constraint. The duplicate key value is (G1_7). (2627)"
    "G1_7" (by rfl)

/-- Claim C7: a run whose candidate file list is empty logs only the two scan
summaries and `"No CSV files found."` and returns normally: total 0, no fatal
entry, and — since the log list is exactly these three entries — no batch, no
per-file event and no insert attempt. -/
theorem c7_no_files (env : Env)
    (h : (list_csv_files env.fs).csvFiles = []) :
    mainRun env =
      ⟨[.skippedSummary (list_csv_files env.fs).unverified
          (list_csv_files env.fs).playerPos,
        .totalToProcess (list_csv_files env.fs).total, .noFilesFound], 0, false⟩ := by
  unfold mainRun
  dsimp only
  rw [h]
  rfl

/-- Witness for C7: the run over an empty readable root. -/
theorem c7_witness :
    mainRun envC7 =
      ⟨[.skippedSummary 0 0, .totalToProcess 0, .noFilesFound], 0, false⟩ :=
  c7_no_files envC7 rfl

/-- Claim C9: the Scanner's exclusion checks apply in order and do not look at
the `.csv` suffix: any filename containing `"unverified"` is counted as
unverified (even if it also matches a player-tracking substring, and whether
or not it ends in `.csv`), and any filename free of `"unverified"` but
containing `"playerpositioning"` or `"playertracking"` is counted as
player-tracking (again regardless of the `.csv` suffix). -/
theorem c9_exclusion_order (acc : ScanResult) (d f : String) :
    (specUnv f = true →
      scanStep acc d f = { acc with unverified := acc.unverified + 1 }) ∧
    (specUnv f = false → specPlayerSub f = true →
      scanStep acc d f = { acc with playerPos := acc.playerPos + 1 }) := by
  constructor
  · intro h
    unfold scanStep
    unfold specUnv at h
    rw [if_pos h]
  · intro h1 h2
    unfold scanStep
    unfold specUnv at h1
    unfold specPlayerSub at h2
    rw [if_neg (by rw [h1]; exact Bool.false_ne_true), if_pos h2]

/-- Witness for C9: a name containing both exclusion substrings and not ending
in `.csv` is counted as unverified only, and a player-tracking name without
the `.csv` suffix is still counted. -/
theorem c9_witness :
    scanStep ⟨[], 0, 0, 0⟩ "d" "UnverifiedPlayerTracking.dat" = ⟨[], 1, 0, 0⟩ ∧
    scanStep ⟨[], 0, 0, 0⟩ "d" "PlayerTracking_20230401.dat" = ⟨[], 0, 1, 0⟩ :=
  ⟨(c9_exclusion_order ⟨[], 0, 0, 0⟩ "d" "UnverifiedPlayerTracking.dat").1 (by rfl),
   (c9_exclusion_order ⟨[], 0, 0, 0⟩ "d" "PlayerTracking_20230401.dat").2 (by rfl) (by rfl)⟩

/-- Claim C4: a file whose first row's `Level` is not `"D1"` produces exactly
the skip log carrying the observed level and contributes 0 rows — no cleaning
output and no insert log; conversely, any insert-attempt log (successful or
classified-failed) can only come from a file whose first row's `Level` equals
`"D1"`, so cleaned records are produced only behind the D1 gate. -/
theorem c4_d1_gate (pd : String → Option PDate) (p : String) (res : Option DbError)
    (df : Table) (lvl : Cell)
    (h1 : firstLevel df = some lvl) (h2 : lvl ≠ Cell.str "D1") :
    processFile pd ⟨p, .table df, res⟩ = ([FileLog.skippedLevel p lvl], 0) ∧
    ∀ (df2 : Table) (l : FileLog), l ∈ (processFile pd ⟨p, .table df2, res⟩).1 →
      l.isInsertLog = true → firstLevel df2 = some (Cell.str "D1") := by
  constructor
  · simp [processFile, h1, h2]
  · intro df2 l hl hins
    cases h : firstLevel df2 with
    | none =>
      simp [processFile, h] at hl
      subst hl
      simp [FileLog.isInsertLog] at hins
    | some lvl2 =>
      by_cases hl2 : lvl2 = Cell.str "D1"
      · exact congrArg some hl2
      · simp [processFile, h, hl2] at hl
        subst hl
        simp [FileLog.isInsertLog] at hins

/-- Witness for C4: a file whose first row has `Level = "NCAA"` is skipped
with the observed level logged and 0 rows contributed. -/
theorem c4_witness :
    processFile (fun _ => none)
      ⟨"d/f.csv", .table [("Level", [Cell.str "NCAA"])], none⟩ =
      ([FileLog.skippedLevel "d/f.csv" (Cell.str "NCAA")], 0) :=
  (c4_d1_gate (fun _ => none) "d/f.csv" none [("Level", [Cell.str "NCAA"])]
    (Cell.str "NCAA") rfl (by decide)).1

/-- Claim C10: a file parsing to a table with zero rows (every column empty)
makes `df['Level'].iloc[0]` raise; the per-file handler catches it, a read
error is logged, the file contributes no insert attempt and 0 rows; and the
batch loop processes every file independently in order, so the run continues
with the next file. -/
theorem c10_zero_rows (pd : String → Option PDate) (p : String) (res : Option DbError)
    (df : Table) (hempty : ∀ c ∈ df, c.2 = ([] : List Cell)) :
    processFile pd ⟨p, .table df, res⟩ = ([FileLog.readError p], 0) ∧
    ∀ (env : Env) (paths : List String),
      runBatch env paths =
        ((paths.map
            (fun q => (processFile env.parseDate (mkEntry env q)).1.map RunLog.fileLog)).flatten,
         (paths.map (fun q => (processFile env.parseDate (mkEntry env q)).2)).sum) := by
  have hfl : firstLevel df = none := by
    unfold firstLevel getCol
    cases hf : df.find? (fun c => c.1 == "Level") with
    | none => rfl
    | some c =>
      have hmem := List.mem_of_find?_eq_some hf
      have h2 := hempty c hmem
      simp [h2]
  exact ⟨by simp [processFile, hfl], fun env paths => runBatch_eq env paths⟩

/-- Witness for C10: a header-only table (columns present, zero rows) yields
exactly one read-error log and 0 rows. -/
theorem c10_witness :
    processFile (fun _ => none)
      ⟨"d/empty.csv", .table [("Level", []), ("GameID", [])], none⟩ =
      ([FileLog.readError "d/empty.csv"], 0) :=
  (c10_zero_rows (fun _ => none) "d/empty.csv" none
    [("Level", []), ("GameID", [])] (by decide)).1

/-! ## Scanner characterization (for claim C5) -/

/-- Restatement of the conditions of `scanStep` through the named predicates. -/
theorem scanStep_eq (acc : ScanResult) (d f : String) :
    scanStep acc d f =
      if specUnv f then { acc with unverified := acc.unverified + 1 }
      else if specPlayerSub f then { acc with playerPos := acc.playerPos + 1 }
      else if ".csv".toList.isSuffixOf (lowerList f) then
        { acc with csvFiles := acc.csvFiles ++ [pathJoin d f],
                   total := acc.total + 1 }
      else acc := rfl

/-- The inner filename loop, characterized from an arbitrary accumulator. -/
theorem scanDir_foldl (d : String) (fs : List String) (acc : ScanResult) :
    fs.foldl (fun a f => scanStep a d f) acc =
      ⟨acc.csvFiles ++ (fs.filter specIncl).map (pathJoin d),
       acc.unverified + fs.countP specUnv,
       acc.playerPos + fs.countP specPlayer,
       acc.total + (fs.filter specIncl).length⟩ := by
  induction fs generalizing acc with
  | nil => simp
  | cons f fs ih =>
    rw [List.foldl_cons, scanStep_eq]
    cases h1 : specUnv f with
    | true =>
      rw [if_pos rfl, ih]
      have hp : specPlayer f = false := by unfold specPlayer; rw [h1]; rfl
      have hi : specIncl f = false := by unfold specIncl; rw [h1]; rfl
      have cu : List.countP specUnv (f :: fs) = List.countP specUnv fs + 1 := by
        rw [List.countP_cons, h1]
        rfl
      have cp : List.countP specPlayer (f :: fs) = List.countP specPlayer fs := by
        rw [List.countP_cons, hp]
        rfl
      have ci : List.filter specIncl (f :: fs) = List.filter specIncl fs := by
        rw [List.filter_cons, hi]
        rfl
      rw [cu, cp, ci]
      simp only [ScanResult.mk.injEq]
      refine ⟨?_, ?_, ?_, ?_⟩ <;> first | trivial | omega
    | false =>
      rw [if_neg (by simp)]
      cases h2 : specPlayerSub f with
      | true =>
        rw [if_pos rfl, ih]
        have hp : specPlayer f = true := by unfold specPlayer; rw [h1, h2]; rfl
        have hi : specIncl f = false := by unfold specIncl; rw [h1, h2]; rfl
        have cu : List.countP specUnv (f :: fs) = List.countP specUnv fs := by
          rw [List.countP_cons, h1]
          rfl
        have cp : List.countP specPlayer (f :: fs) =
            List.countP specPlayer fs + 1 := by
          rw [List.countP_cons, hp]
          rfl
        have ci : List.filter specIncl (f :: fs) = List.filter specIncl fs := by
          rw [List.filter_cons, hi]
          rfl
        rw [cu, cp, ci]
        simp only [ScanResult.mk.injEq]
        refine ⟨?_, ?_, ?_, ?_⟩ <;> first | trivial | omega
      | false =>
        rw [if_neg (by simp)]
        cases h3 : ".csv".toList.isSuffixOf (lowerList f) with
        | true =>
          rw [if_pos rfl, ih]
          have hp : specPlayer f = false := by unfold specPlayer; rw [h1, h2]; rfl
          have hi : specIncl f = true := by unfold specIncl; rw [h1, h2, h3]; rfl
          have cu : List.countP specUnv (f :: fs) = List.countP specUnv fs := by
            rw [List.countP_cons, h1]
            rfl
          have cp : List.countP specPlayer (f :: fs) =
              List.countP specPlayer fs := by
            rw [List.countP_cons, hp]
            rfl
          have ci : List.filter specIncl (f :: fs) =
              f :: List.filter specIncl fs := by
            rw [List.filter_cons, hi]
            rfl
          rw [cu, cp, ci]
          simp only [ScanResult.mk.injEq, List.map_cons]
          refine ⟨?_, ?_, ?_, ?_⟩
          · simp [List.append_assoc]
          · trivial
          · trivial
          · simp only [List.length_cons]
            omega
        | false =>
          rw [if_neg (by simp), ih]
          have hp : specPlayer f = false := by unfold specPlayer; rw [h1, h2]; rfl
          have hi : specIncl f = false := by unfold specIncl; rw [h1, h2, h3]; rfl
          have cu : List.countP specUnv (f :: fs) = List.countP specUnv fs := by
            rw [List.countP_cons, h1]
            rfl
          have cp : List.countP specPlayer (f :: fs) =
              List.countP specPlayer fs := by
            rw [List.countP_cons, hp]
            rfl
          have ci : List.filter specIncl (f :: fs) = List.filter specIncl fs := by
            rw [List.filter_cons, hi]
            rfl
          rw [cu, cp, ci]

/-- The outer walk loop, characterized from an arbitrary accumulator. -/
theorem scanFold (entries : List (String × List String)) (acc : ScanResult) :
    entries.foldl scanDir acc =
      ⟨acc.csvFiles ++ includedPaths entries,
       acc.unverified + (allNames entries).countP specUnv,
       acc.playerPos + (allNames entries).countP specPlayer,
       acc.total + (includedPaths entries).length⟩ := by
  induction entries generalizing acc with
  | nil => simp [includedPaths, allNames]
  | cons e es ih =>
    rw [List.foldl_cons]
    rw [show scanDir acc e =
      ⟨acc.csvFiles ++ (e.2.filter specIncl).map (pathJoin e.1),
       acc.unverified + e.2.countP specUnv,
       acc.playerPos + e.2.countP specPlayer,
       acc.total + (e.2.filter specIncl).length⟩ from scanDir_foldl e.1 e.2 acc]
    rw [ih]
    simp only [includedPaths, allNames, List.map_cons, List.flatten_cons,
      List.countP_append, List.length_append, List.length_map,
      ScanResult.mk.injEq, List.append_assoc]
    refine ⟨?_, ?_, ?_, ?_⟩ <;> first | trivial | omega

/-- The number of included paths equals the number of filenames satisfying the
inclusion predicate. -/
theorem includedPaths_length (entries : List (String × List String)) :
    (includedPaths entries).length = (allNames entries).countP specIncl := by
  unfold includedPaths allNames
  rw [List.length_flatten, List.countP_flatten, List.map_map, List.map_map]
  congr 1
  apply List.map_congr_left
  intro e _
  simp [List.countP_eq_length_filter]

/-- Pointwise form of the partition: each filename contributes exactly one
unit across the four category predicates. -/
theorem spec_partition (f : String) :
    (if specUnv f = true then 1 else 0) + (if specPlayer f = true then 1 else 0) +
      (if specIncl f = true then 1 else 0) +
      (if specIgn f = true then 1 else 0) = 1 := by
  unfold specPlayer specIncl specIgn
  cases h1 : specUnv f <;> cases h2 : specPlayerSub f <;>
    cases h3 : ".csv".toList.isSuffixOf (lowerList f) <;> rfl

/-- Every filename falls in exactly one of the four Scanner categories. -/
theorem countP_partition (l : List String) :
    l.countP specUnv + l.countP specPlayer + l.countP specIncl +
      l.countP specIgn = l.length := by
  induction l with
  | nil => rfl
  | cons f fs ih =>
    simp only [List.countP_cons, List.length_cons]
    have e1 := spec_partition f
    omega

/-- Claim C5: on any walked tree, the Scanner (case-insensitively) counts in
the unverified counter exactly the names containing `"unverified"`, counts in
the player-tracking counter exactly the names free of `"unverified"` but
containing `"playerpositioning"` or `"playertracking"`, includes — in
enumeration order — exactly the remaining names ending in `.csv` (its `total`
being their number), and silently ignores the rest; the two exclusion
predicates are mutually exclusive, and the two exclusion counts, the included
total and the ignored count sum to the number of files seen. -/
theorem c5_scanner (entries : List (String × List String)) :
    list_csv_files (.readable entries) =
      ⟨includedPaths entries, (allNames entries).countP specUnv,
       (allNames entries).countP specPlayer, (includedPaths entries).length⟩ ∧
    (∀ f, specUnv f = true → specPlayer f = false) ∧
    (allNames entries).countP specUnv + (allNames entries).countP specPlayer +
        (includedPaths entries).length + (allNames entries).countP specIgn =
      (allNames entries).length := by
  refine ⟨?_, ?_, ?_⟩
  · unfold list_csv_files walk
    rw [scanFold]
    simp
  · intro f h
    simp [specPlayer, h]
  · rw [includedPaths_length]
    exact countP_partition (allNames entries)

/-- Witness for C5 at a concrete tree: one included CSV, one unverified
exclusion, one player-tracking exclusion, one silently ignored file; and the
unverified predicate excludes a name from the player-tracking count. -/
theorem c5_witness :
    list_csv_files (.readable
      [("d", ["A.csv", "b_unverified.csv", "c_PlayerTracking.csv", "notes.txt"])]) =
      ⟨["d/A.csv"], 1, 1, 1⟩ ∧
    specPlayer "b_unverified.csv" = false := by
  constructor
  · rw [(c5_scanner
      [("d", ["A.csv", "b_unverified.csv", "c_PlayerTracking.csv", "notes.txt"])]).1]
    rfl
  · exact (c5_scanner
      [("d", ["A.csv", "b_unverified.csv", "c_PlayerTracking.csv", "notes.txt"])]).2.1
      "b_unverified.csv" (by rfl)

/-! ## Column-access lemmas (for claim C8) -/

/-- Unfolding of `getCol` on a cons cell. -/
theorem getCol_cons (c : String × List Cell) (rest : Table) (n : String) :
    getCol (c :: rest) n = if c.1 == n then some c.2 else getCol rest n := by
  simp only [getCol, List.find?_cons]
  cases h : (c.1 == n) <;> simp [h]

/-- Lookup `getCol` is unchanged by a map that preserves both name-matching and the
values of matching columns. -/
theorem getCol_map_preserve (g : String × List Cell → String × List Cell)
    (df : Table) (n : String)
    (hname : ∀ c, ((g c).1 == n) = (c.1 == n))
    (hval : ∀ c, (c.1 == n) = true → (g c).2 = c.2) :
    getCol (df.map g) n = getCol df n := by
  induction df with
  | nil => rfl
  | cons c cs ih =>
    simp only [List.map_cons]
    rw [getCol_cons, getCol_cons, hname c]
    cases h : (c.1 == n) with
    | true => simp [hval c h]
    | false =>
      simp only [Bool.false_eq_true, if_false]
      exact ih

/-- Lookup `getCol` over an appended table: the left part wins when it has the
column. -/
theorem getCol_append (df df2 : Table) (n : String) :
    getCol (df ++ df2) n =
      match getCol df n with
      | some v => some v
      | none => getCol df2 n := by
  induction df with
  | nil => rfl
  | cons c cs ih =>
    rw [List.cons_append, getCol_cons, getCol_cons]
    cases h : (c.1 == n) <;> simp [h, ih]

/-- A table none of whose columns is named `m` has no column `m`. -/
theorem getCol_none_of_any_false (df : Table) (m : String)
    (h : df.any (fun c => c.1 == m) = false) : getCol df m = none := by
  induction df with
  | nil => rfl
  | cons c cs ih =>
    simp only [List.any_cons, Bool.or_eq_false_iff] at h
    rw [getCol_cons, if_neg (by rw [h.1]; exact Bool.false_ne_true)]
    exact ih h.2

/-- Renaming `Top/Bottom` leaves every other column lookup unchanged. -/
theorem getCol_renameTB (df : Table) (n : String)
    (h1 : ¬n = "Top/Bottom") (h2 : ¬n = "Top_Bottom") :
    getCol (renameTB df) n = getCol df n := by
  apply getCol_map_preserve
  · intro c
    by_cases hc : (c.1 == "Top/Bottom") = true
    · dsimp only
      rw [if_pos hc]
      have e1 : ("Top_Bottom" == n) = false := by
        rw [beq_eq_false_iff_ne]
        exact fun h => h2 h.symm
      have e2 : (c.1 == n) = false := by
        rw [beq_eq_false_iff_ne]
        intro hcn
        exact h1 (hcn.symm.trans (eq_of_beq hc))
      rw [e1, e2]
    · dsimp only
      rw [if_neg hc]
  · intro c _
    by_cases hc : (c.1 == "Top/Bottom") = true <;> simp [hc]

/-- Assigning a column of a different name leaves a lookup unchanged. -/
theorem getCol_setCol_ne (df : Table) (m n : String) (vals : List Cell)
    (h : ¬m = n) : getCol (setCol df m vals) n = getCol df n := by
  unfold setCol
  split
  · apply getCol_map_preserve
    · intro c
      by_cases hc : (c.1 == m) = true
      · rw [if_pos hc]
        dsimp only
        have e1 : (m == n) = false := by
          rw [beq_eq_false_iff_ne]
          exact h
        have e2 : (c.1 == n) = false := by
          rw [beq_eq_false_iff_ne]
          intro hcn
          exact h ((eq_of_beq hc).symm.trans hcn)
        rw [e1, e2]
      · rw [if_neg hc]
    · intro c hcn
      have e : (c.1 == m) = false := by
        rw [beq_eq_false_iff_ne]
        intro hcm
        exact h (hcm.symm.trans (eq_of_beq hcn))
      rw [if_neg (by rw [e]; exact Bool.false_ne_true)]
  · rw [getCol_append]
    have e : getCol [(m, vals)] n = none := by
      rw [getCol_cons]
      have e1 : (m == n) = false := by
        rw [beq_eq_false_iff_ne]
        exact h
      rw [if_neg (by rw [e1]; exact Bool.false_ne_true)]
      rfl
    rw [e]
    cases getCol df n <;> rfl

/-- On a table that has a column named `m`, replacing every such column with
`(m, vals)` makes the lookup of `m` return `vals`. -/
theorem getCol_mapReplace (df : Table) (m : String) (vals : List Cell)
    (hany : df.any (fun c => c.1 == m) = true) :
    getCol (df.map (fun c => if c.1 == m then (m, vals) else c)) m = some vals := by
  induction df with
  | nil => simp at hany
  | cons c cs ih =>
    simp only [List.map_cons]
    by_cases hc : (c.1 == m) = true
    · rw [if_pos hc, getCol_cons]
      simp
    · rw [if_neg hc, getCol_cons, if_neg hc]
      simp only [List.any_cons, Bool.or_eq_true] at hany
      exact ih (hany.resolve_left hc)

/-- Looking up the just-assigned column returns the assigned values. -/
theorem getCol_setCol_self (df : Table) (m : String) (vals : List Cell) :
    getCol (setCol df m vals) m = some vals := by
  unfold setCol
  split
  · next hany => exact getCol_mapReplace df m vals hany
  · next hany =>
    rw [getCol_append,
      getCol_none_of_any_false df m (by
        cases he : df.any (fun c => c.1 == m) with
        | true => exact absurd he hany
        | false => rfl)]
    rw [getCol_cons]
    simp

/-- Effect of `astype(str)` of the whole table, seen through a column lookup. -/
theorem getCol_astypeLoop (df : Table) (n : String) :
    getCol (astypeLoop df) n = (getCol df n).map
      (fun vs => if colIsObject vs then
        vs.map (fun v => Cell.str v.astypeStr) else vs) := by
  induction df with
  | nil => rfl
  | cons c cs ih =>
    unfold astypeLoop
    simp only [List.map_cons]
    by_cases ho : colIsObject c.2 = true
    · rw [if_pos ho, getCol_cons, getCol_cons]
      dsimp only
      cases h : (c.1 == n) with
      | true => simp [h, ho]
      | false =>
        simp only [Bool.false_eq_true, if_false]
        exact ih
    · rw [if_neg ho, getCol_cons, getCol_cons]
      cases h : (c.1 == n) with
      | true => simp [ho]
      | false =>
        simp only [Bool.false_eq_true, if_false]
        exact ih

/-- The derived `RowID` column, characterized: the positional concatenation
`GameID + "_" + str(PitchNo)` per row. -/
theorem rowIdCol_char (gs : List Cell) : ∀ (ps rid : List Cell),
    rowIdCol gs ps = some rid →
    rid = (gs.zip ps).map
      (fun x => Cell.str (x.1.astypeStr ++ "_" ++ x.2.astypeStr)) := by
  induction gs with
  | nil =>
    intro ps rid h
    simp only [rowIdCol, Option.some.injEq] at h
    simp [← h]
  | cons g gs ih =>
    intro ps rid h
    cases ps with
    | nil =>
      simp only [rowIdCol, Option.some.injEq] at h
      simp [← h]
    | cons p ps =>
      cases he : rowIdEntry g p with
      | none => simp [rowIdCol, he] at h
      | some c =>
        cases hr : rowIdCol gs ps with
        | none => simp [rowIdCol, he, hr] at h
        | some rest =>
          simp only [rowIdCol, he, hr, Option.bind_eq_bind, Option.some_bind,
            Option.some.injEq] at h
          have hc : c = Cell.str (g.astypeStr ++ "_" ++ p.astypeStr) := by
            cases g with
            | str sg =>
              simp only [rowIdEntry, Option.some.injEq] at he
              rw [← he]
              rfl
            | int v => simp [rowIdEntry] at he
            | time v => simp [rowIdEntry] at he
            | date v => simp [rowIdEntry] at he
          rw [← h, hc, List.zip_cons_cons, List.map_cons]
          rw [ih ps rest hr]

/-- A column of string cells has dtype `object`, and `astype(str)` leaves it
unchanged. -/
theorem strCol_astype_id (vs : List Cell)
    (h : ∀ c ∈ vs, ∃ s, c = Cell.str s) :
    colIsObject vs = true ∧ vs.map (fun v => Cell.str v.astypeStr) = vs := by
  induction vs with
  | nil => exact ⟨rfl, rfl⟩
  | cons c cs ih =>
    obtain ⟨s, hs⟩ := h c (List.mem_cons_self c cs)
    have ht := ih (fun x hx => h x (List.mem_cons_of_mem c hx))
    subst hs
    constructor
    · simp only [colIsObject, List.all_cons, Bool.and_eq_true]
      exact ⟨trivial, ht.1⟩
    · rw [List.map_cons, ht.2]
      rfl

/-- Every cell produced by the `RowID` construction is a string cell. -/
theorem rowIdCol_all_str (gs ps rid : List Cell)
    (h : rowIdCol gs ps = some rid) : ∀ c ∈ rid, ∃ s, c = Cell.str s := by
  intro c hc
  rw [rowIdCol_char gs ps rid h] at hc
  rw [List.mem_map] at hc
  obtain ⟨x, _, hx⟩ := hc
  exact ⟨_, hx.symm⟩

/-- Claim C8: in every successfully cleaned table, the `RowID` column is the
row-wise string concatenation of `GameID`, `"_"`, and the string form of
`PitchNo` (the `astype(str)` pass leaves it unchanged, `RowID` being a column
of strings). -/
theorem c8_rowid (pd : String → Option PDate) (df cdf : Table)
    (g q rid : List Cell)
    (hg : getCol df "GameID" = some g) (hq : getCol df "PitchNo" = some q)
    (hrid : rowIdCol g q = some rid)
    (hc : clean_data pd df = some cdf) :
    getCol cdf "RowID" = some rid ∧
    rid = (g.zip q).map
      (fun x => Cell.str (x.1.astypeStr ++ "_" ++ x.2.astypeStr)) := by
  refine ⟨?_, rowIdCol_char g q rid hrid⟩
  unfold clean_data at hc
  cases hd : getCol (renameTB df) "Date" with
  | none => simp [hd] at hc
  | some dcol =>
    simp only [hd] at hc
    cases ht : getCol (setCol (renameTB df) "Date"
        (dcol.map (fun c => Cell.date (dateCellParse pd c)))) "Time" with
    | none => simp [ht] at hc
    | some tcol =>
      simp only [ht] at hc
      have hg3 : getCol (setCol (setCol (renameTB df) "Date"
          (dcol.map (fun c => Cell.date (dateCellParse pd c)))) "Time"
          ((timeColumnRaw tcol).map Cell.time)) "GameID" = some g := by
        rw [getCol_setCol_ne _ _ _ _ (by decide),
          getCol_setCol_ne _ _ _ _ (by decide),
          getCol_renameTB _ _ (by decide) (by decide)]
        exact hg
      have hq3 : getCol (setCol (setCol (renameTB df) "Date"
          (dcol.map (fun c => Cell.date (dateCellParse pd c)))) "Time"
          ((timeColumnRaw tcol).map Cell.time)) "PitchNo" = some q := by
        rw [getCol_setCol_ne _ _ _ _ (by decide),
          getCol_setCol_ne _ _ _ _ (by decide),
          getCol_renameTB _ _ (by decide) (by decide)]
        exact hq
      simp only [hg3, hq3, hrid, Option.some.injEq] at hc
      rw [← hc, getCol_astypeLoop, getCol_setCol_self]
      obtain ⟨hobj, hid⟩ := strCol_astype_id rid (rowIdCol_all_str g q rid hrid)
      simp [hobj, hid]

/-- Witness for C8: a one-row D1 file with `GameID = "G1"` and `PitchNo = 7`
cleans to a table whose `RowID` column is `["G1_7"]`. -/
theorem c8_witness :
    getCol (astypeLoop (setCol (setCol (setCol (renameTB
      [("Level", [Cell.str "D1"]), ("Date", [Cell.str "2023-04-01"]),
       ("Time", [Cell.str "14:05:30.123456"]), ("GameID", [Cell.str "G1"]),
       ("PitchNo", [Cell.int 7])]) "Date"
        ([Cell.str "2023-04-01"].map (fun c => Cell.date (dateCellParse (fun _ => none) c))))
        "Time" ((timeColumnRaw [Cell.str "14:05:30.123456"]).map Cell.time))
        "RowID" [Cell.str "G1_7"])) "RowID" = some [Cell.str "G1_7"] ∧
    [Cell.str "G1_7"] =
      ([Cell.str "G1"].zip [Cell.int 7]).map
        (fun x => Cell.str (x.1.astypeStr ++ "_" ++ x.2.astypeStr)) :=
  c8_rowid (fun _ => none)
    [("Level", [Cell.str "D1"]), ("Date", [Cell.str "2023-04-01"]),
     ("Time", [Cell.str "14:05:30.123456"]), ("GameID", [Cell.str "G1"]),
     ("PitchNo", [Cell.int 7])]
    (astypeLoop (setCol (setCol (setCol (renameTB
      [("Level", [Cell.str "D1"]), ("Date", [Cell.str "2023-04-01"]),
       ("Time", [Cell.str "14:05:30.123456"]), ("GameID", [Cell.str "G1"]),
       ("PitchNo", [Cell.int 7])]) "Date"
        ([Cell.str "2023-04-01"].map (fun c => Cell.date (dateCellParse (fun _ => none) c))))
        "Time" ((timeColumnRaw [Cell.str "14:05:30.123456"]).map Cell.time))
        "RowID" [Cell.str "G1_7"]))
    [Cell.str "G1"] [Cell.int 7] [Cell.str "G1_7"]
    (by rfl) (by rfl) (by rfl) (by rfl)

end Trackman
